import Mathlib

/-!
Verification development for the SmartPrice pricing/benefit core
(`backend/tools.py`, `backend/agents.py`, `backend/main.py`).

The Python source is shallowly embedded: prices and rates are modelled as
rationals, Python strings as `String` (operating on the underlying `List Char`
where the source performs `.lower()` / substring / `.index()` operations),
Python dicts with a fixed key set as structures, and a raised-and-caught
exception as `Except`.
-/

attribute [local semireducible] Rat.mul Rat.add Rat.sub Rat.inv

/-! ### Python string helpers -/

/-- Python's `needle in hay` substring test, on character lists. -/
def listContains (needle : List Char) : List Char → Bool
  | [] => needle.isPrefixOf []
  | c :: rest => needle.isPrefixOf (c :: rest) || listContains needle rest

/-- Python's `str.lower()` (the source only lowercases ASCII text). -/
def pyLower (s : String) : List Char := s.data.map Char.toLower

/-- Python's `hay.index(needle)`: index of the first occurrence of `needle`.
Total function; returns `hay.length` when absent (the source only calls it
after an `in` guard). -/
def listIndex (needle : List Char) : List Char → Nat
  | [] => 0
  | c :: rest => if needle.isPrefixOf (c :: rest) then 0 else listIndex needle rest + 1

/-- Python's `str.title()` as used on platform names: uppercase a letter that
starts a word, lowercase the rest. -/
def pyTitleGo : Bool → List Char → List Char
  | _, [] => []
  | prevAlpha, c :: rest =>
    (if c.isAlpha then (if prevAlpha then c.toLower else c.toUpper) else c) ::
      pyTitleGo c.isAlpha rest

/-- Python's `str.title()`. -/
def pyTitle (s : String) : String := ⟨pyTitleGo false s.data⟩

/-! ### Price extractor (`extract_price_from_text`, tools.py:267-290)

The four regex patterns are embedded as direct scanners.  Each pattern's
numeric group is `\d+(?:,\d+)*(?:\.\d+)?`; the groups are matched greedily,
which coincides with the regex backtracking semantics here (the language of
the numeric token is deterministic, and for the trailing-`₹` pattern at most
one token end can be followed by `\s*₹`, since token characters are digits,
commas and dots while the tail must start with whitespace or `₹`). -/

/-- Greedy scan of the numeric token's tail after its first digit.  State
`inFrac = false`: inside the integer part, where further digits, `,⟨digit⟩`
comma groups and a single `.⟨digit⟩` fraction opener may follow; state
`inFrac = true`: inside the fraction, digits only. -/
def numScan : Bool → List Char → List Char × List Char
  | _, [] => ([], [])
  | inFrac, c :: rest =>
    if c.isDigit then
      let (t, r) := numScan inFrac rest
      (c :: t, r)
    else if inFrac then ([], c :: rest)
    else if c = ',' then
      match rest with
      | [] => ([], [','])
      | d :: rest2 =>
        if d.isDigit then
          let (t, r) := numScan false rest2
          (',' :: d :: t, r)
        else ([], ',' :: d :: rest2)
    else if c = '.' then
      match rest with
      | [] => ([], ['.'])
      | d :: rest2 =>
        if d.isDigit then
          let (t, r) := numScan true rest2
          ('.' :: d :: t, r)
        else ([], '.' :: d :: rest2)
    else ([], c :: rest)

/-- The numeric token `\d+(?:,\d+)*(?:\.\d+)?`, greedy; `none` when the text
does not start with a digit. Returns the token and the rest of the text. -/
def parseNum : List Char → Option (List Char × List Char)
  | [] => none
  | c :: rest =>
    if c.isDigit then
      let (t, r) := numScan false rest
      some (c :: t, r)
    else none

/-- `\s*` then the numeric token; used after a currency marker. -/
def numAfterSpaces (cs : List Char) : Option (List Char) :=
  match parseNum (cs.dropWhile Char.isWhitespace) with
  | some (tok, _) => some tok
  | none => none

/-- Pattern `₹\s*(\d+(?:,\d+)*(?:\.\d+)?)` anchored at the current position. -/
def matchRupeeAt : List Char → Option (List Char)
  | '₹' :: rest => numAfterSpaces rest
  | _ => none

/-- Pattern `Rs\.?\s*(\d+(?:,\d+)*(?:\.\d+)?)` anchored at the current
position. -/
def matchRsAt : List Char → Option (List Char)
  | 'R' :: 's' :: '.' :: rest => numAfterSpaces rest
  | 'R' :: 's' :: rest => numAfterSpaces rest
  | _ => none

/-- Pattern `INR\s*(\d+(?:,\d+)*(?:\.\d+)?)` anchored at the current
position. -/
def matchInrAt : List Char → Option (List Char)
  | 'I' :: 'N' :: 'R' :: rest => numAfterSpaces rest
  | _ => none

/-- Pattern `(\d+(?:,\d+)*(?:\.\d+)?)\s*₹` anchored at the current
position. -/
def matchTrailingRupeeAt (cs : List Char) : Option (List Char) :=
  match parseNum cs with
  | some (tok, rest) =>
    match rest.dropWhile Char.isWhitespace with
    | '₹' :: _ => some tok
    | _ => none
  | none => none

/-- Leftmost match of an anchored pattern (`re.findall`'s first result). -/
def findFirst (m : List Char → Option (List Char)) : List Char → Option (List Char)
  | [] => none
  | c :: rest =>
    match m (c :: rest) with
    | some tok => some tok
    | none => findFirst m rest

/-- Digit run to a natural number. -/
def digitsToNat (ds : List Char) : Nat :=
  ds.foldl (fun n c => 10 * n + (c.toNat - 48)) 0

/-- Python's `float(...)` on a matched numeric group with commas stripped. -/
def tokenToRat (tok : List Char) : ℚ :=
  let t := tok.filter (fun c => c ≠ ',')
  let intDs := t.takeWhile (fun c => c ≠ '.')
  match t.dropWhile (fun c => c ≠ '.') with
  | '.' :: fr => (digitsToNat intDs : ℚ) + (digitsToNat fr : ℚ) / ((10 : ℚ) ^ fr.length)
  | _ => (digitsToNat intDs : ℚ)

/-- `extract_price_from_text` (tools.py:267-290): try the four patterns in
priority order and return the first match's value with commas stripped;
`0` for empty text or when every pattern fails. -/
def extract_price_from_text (text : String) : ℚ :=
  if text = "" then 0
  else
    let cs := text.data
    match findFirst matchRupeeAt cs with
    | some tok => tokenToRat tok
    | none =>
      match findFirst matchRsAt cs with
      | some tok => tokenToRat tok
      | none =>
        match findFirst matchInrAt cs with
        | some tok => tokenToRat tok
        | none =>
          match findFirst matchTrailingRupeeAt cs with
          | some tok => tokenToRat tok
          | none => 0

example : extract_price_from_text "₹61,499" = 61499 := by decide
example : extract_price_from_text "Rs. 500" = 500 := by decide
example : extract_price_from_text "no price here" = 0 := by decide
example : extract_price_from_text "" = 0 := by decide
example : extract_price_from_text "₹57" = 57 := by decide
example : extract_price_from_text "about 1.5 ₹ each" = 3/2 := by decide

/-! ### Credit card benefits table (`CREDIT_CARD_BENEFITS`, tools.py:228-264)

Reward rates are rationals; every entry of the Python dict carries all five
keys, so the `.get(..., default)` reads in `calculate_credit_card_benefits`
always find the key and are embedded as plain field reads. -/

structure CardInfo where
  cashback_rate : ℚ
  annual_fee : String
  benefits : String
  grocery_rate : ℚ
  online_rate : ℚ
deriving DecidableEq, Repr

/-- The static card table, keyed by card name. -/
def CREDIT_CARD_BENEFITS (card_name : String) : Option CardInfo :=
  if card_name = "HDFC Bank Millennia" then
    some ⟨5/100, "₹1,000", "5% cashback on Amazon, Flipkart, Myntra, Zomato, Swiggy", 1/100, 5/100⟩
  else if card_name = "SBI SimplyCLICK" then
    some ⟨10/100, "₹499", "10X points on online shopping partners", 1/100, 10/100⟩
  else if card_name = "SBI SimplySAVE" then
    some ⟨10/100, "₹499", "10X points on dining, movies, grocery stores", 10/100, 1/100⟩
  else if card_name = "Amazon Pay ICICI" then
    some ⟨5/100, "Nil", "5% cashback on Amazon, 2% on other merchants", 1/100, 5/100⟩
  else if card_name = "Flipkart Axis Bank" then
    some ⟨5/100, "₹500", "5% cashback on Flipkart, 4% on partner merchants", 1/100, 5/100⟩
  else none

/-- Result of `calculate_credit_card_benefits`.  The unknown-card branch of
the Python function returns a dict WITHOUT the `annual_fee` key; that absence
is modelled by `annual_fee = none`. -/
structure BenefitResult where
  cashback_earned : ℚ
  effective_cashback_rate : ℚ
  benefits_description : String
  annual_fee : Option String
deriving DecidableEq, Repr

/-- `calculate_credit_card_benefits` (tools.py:319-345). -/
def calculate_credit_card_benefits (price : ℚ) (card_name : String) (category : String) :
    BenefitResult :=
  match CREDIT_CARD_BENEFITS card_name with
  | none => ⟨0, 0, "No card benefits available", none⟩
  | some card_info =>
    let cashback_rate :=
      if category = "grocery" then card_info.grocery_rate
      else if category = "online" then card_info.online_rate
      else card_info.cashback_rate
    ⟨price * cashback_rate, cashback_rate * 100, card_info.benefits, some card_info.annual_fee⟩

example :
    calculate_credit_card_benefits 1000 "HDFC Bank Millennia" "online" =
      ⟨50, 5, "5% cashback on Amazon, Flipkart, Myntra, Zomato, Swiggy", some "₹1,000"⟩ := by
  decide
example : (calculate_credit_card_benefits 500 "Unknown Card" "general").cashback_earned = 0 := by
  decide

/-! ### Product price analysis (`analyze_product_prices_tool`, tools.py:525-625)

A scraped listing; the tool reads each field with a `.get(key, default)`, so
fields are optional with the source's defaults applied at the read site.
The `listing_info` unwrapping for nested inputs is identity on the flat
records modelled here. -/

structure Listing where
  title : Option String := none
  price_str : Option String := none
  platform : Option String := none
  url : Option String := none
deriving DecidableEq, Repr

/-- The nested `credit_card_benefits` dict of an analyzed product. -/
structure CreditCardBenefitsOut where
  reward_points_earned : ℚ
  reward_points_value : ℚ
  cashback_earned : ℚ
  effective_cashback_rate : ℚ
  annual_fee : String
  total_value_benefit : ℚ
deriving DecidableEq, Repr

/-- One analyzed product entry (tools.py:583-606). -/
structure AnalyzedProduct where
  product_title : String
  product_url : String
  platform : String
  original_price : ℚ
  platform_discount : ℚ
  credit_card_discount : ℚ
  total_discount : ℚ
  effective_price : ℚ
  savings_percentage : ℚ
  recommended_card : String
  card_benefit_description : String
  credit_card_benefits : CreditCardBenefitsOut
  confidence_score : ℚ
  availability_status : String
  delivery_info : String
deriving DecidableEq, Repr

/-- The per-offer best-card loop (tools.py:562-573): running state is
`(best_card, best_cashback, best_benefits)`, updated only on a strictly
larger cashback. -/
def bestCardLoop (price : ℚ) :
    List String → String × ℚ × Option BenefitResult → String × ℚ × Option BenefitResult
  | [], acc => acc
  | card :: rest, acc =>
    if acc.2.1 < (calculate_credit_card_benefits price card "online").cashback_earned then
      bestCardLoop price rest
        (card, (calculate_credit_card_benefits price card "online").cashback_earned,
          some (calculate_credit_card_benefits price card "online"))
    else bestCardLoop price rest acc

/-- The `(best_card, best_benefits)` pair after the per-offer loop
(tools.py:562-577): the loop result, with the `if not best_benefits`
fallback recomputation for the initial card applied. -/
def bestBenefitsOf (price : ℚ) (user_credit_cards : List String) : String × BenefitResult :=
  match bestCardLoop price user_credit_cards (user_credit_cards.headD "No Card", 0, none) with
  | (best_card, _, some b) => (best_card, b)
  | (best_card, _, none) =>
    (best_card, calculate_credit_card_benefits price best_card "online")

/-- The analyzed-product record built at tools.py:583-606. -/
def mkAnalyzedProduct (title url platform : String) (original_price : ℚ)
    (best_card : String) (best_benefits : BenefitResult) (fee : String) : AnalyzedProduct :=
  { product_title := title
    product_url := url
    platform := platform
    original_price := original_price
    platform_discount := 0
    credit_card_discount := best_benefits.cashback_earned
    total_discount := best_benefits.cashback_earned
    effective_price := original_price - best_benefits.cashback_earned
    savings_percentage :=
      if 0 < original_price then best_benefits.cashback_earned / original_price * 100 else 0
    recommended_card := best_card
    card_benefit_description := best_benefits.benefits_description
    credit_card_benefits :=
      ⟨0, 0, best_benefits.cashback_earned, best_benefits.effective_cashback_rate, fee,
        best_benefits.cashback_earned⟩
    confidence_score := 9/10
    availability_status := "In_Stock"
    delivery_info := "Standard delivery available" }

/-- Analysis of a single listing (tools.py:544-608).  `ok none` is the
`continue` for a non-positive resolved price; `error` is the `KeyError`
raised by `best_benefits['annual_fee']` when the selected benefits dict
lacks that key (unknown card), which the surrounding `try` turns into the
error result. -/
def analyzeListing (user_credit_cards : List String) (product : Listing) :
    Except String (Option AnalyzedProduct) :=
  if extract_price_from_text (product.price_str.getD "₹0") ≤ 0 then Except.ok none
  else
    match (bestBenefitsOf (extract_price_from_text (product.price_str.getD "₹0"))
        user_credit_cards).2.annual_fee with
    | none => Except.error "annual_fee"
    | some fee =>
      Except.ok (some (mkAnalyzedProduct (product.title.getD "Unknown Product")
        (product.url.getD "") (product.platform.getD "Unknown")
        (extract_price_from_text (product.price_str.getD "₹0"))
        (bestBenefitsOf (extract_price_from_text (product.price_str.getD "₹0"))
          user_credit_cards).1
        (bestBenefitsOf (extract_price_from_text (product.price_str.getD "₹0"))
          user_credit_cards).2
        fee))

/-- The product loop (tools.py:544-608): listings in order, skipping
non-positive prices; a raised `KeyError` aborts the whole analysis. -/
def analyzeLoop (user_credit_cards : List String) :
    List Listing → Except String (List AnalyzedProduct)
  | [] => Except.ok []
  | p :: ps =>
    match analyzeListing user_credit_cards p with
    | Except.error e => Except.error e
    | Except.ok none => analyzeLoop user_credit_cards ps
    | Except.ok (some ap) =>
      match analyzeLoop user_credit_cards ps with
      | Except.error e => Except.error e
      | Except.ok rest => Except.ok (ap :: rest)

/-- Return shape of `analyze_product_prices_tool`: the success dict
(tools.py:613-617) or the caught-exception dict (tools.py:621-625). -/
inductive AnalysisResult where
  | ok (analyzed_products : List AnalyzedProduct) (total_products : Nat)
      (user_credit_cards : List String)
  | err (error : String)
deriving DecidableEq, Repr

/-- The `analyzed_products` list of the returned dict (empty on the error
path, tools.py:622). -/
def AnalysisResult.products : AnalysisResult → List AnalyzedProduct
  | .ok l _ _ => l
  | .err _ => []

/-- The ascending-by-effective-price order used by the final
`analyzed_products.sort(key=lambda x: x['effective_price'])`. -/
def effLe (a b : AnalyzedProduct) : Prop := a.effective_price ≤ b.effective_price

instance : DecidableRel effLe :=
  fun a b => inferInstanceAs (Decidable (a.effective_price ≤ b.effective_price))

instance : IsTotal AnalyzedProduct effLe := ⟨fun a b => le_total a.effective_price b.effective_price⟩

instance : IsTrans AnalyzedProduct effLe := ⟨fun _ _ _ => le_trans⟩

/-- `analyze_product_prices_tool` (tools.py:525-625).  Python's `list.sort`
is a stable ascending sort; it is embedded as `List.insertionSort`, which is
also stable and ascending and therefore produces the identical list. -/
def analyze_product_prices_tool (products : List Listing) (user_credit_cards : List String) :
    AnalysisResult :=
  match analyzeLoop user_credit_cards products with
  | Except.error e => AnalysisResult.err e
  | Except.ok l =>
    AnalysisResult.ok (List.insertionSort effLe l) (List.insertionSort effLe l).length
      user_credit_cards

example :
    (analyze_product_prices_tool
        [⟨some "T", some "₹1,000", some "Amazon", some "u"⟩] ["HDFC Bank Millennia"]).products.map
      (fun a => (a.recommended_card, a.effective_price)) = [("HDFC Bank Millennia", 950)] := by
  decide

example :
    analyze_product_prices_tool [⟨some "T", some "₹100", none, none⟩]
      ["Mystery Card"] = AnalysisResult.err "annual_fee" := by
  decide

/-! ### Grocery analysis (`analyze_grocery_prices_tool`, tools.py:628-764) -/

/-- One mock grocery product (`MOCK_GROCERY`, tools.py:164-225). -/
structure GroceryListing where
  product_title : String
  price : String
  brand : String
  weight : String
  availability : String
  platform : String
deriving DecidableEq, Repr

/-- `MOCK_GROCERY['blinkit']`. -/
def MOCK_GROCERY_blinkit : List GroceryListing :=
  [⟨"Amul Taaza Toned Milk 1L", "₹57", "Amul", "1L", "In Stock", "blinkit"⟩,
   ⟨"Harvest Gold White Bread 350g", "₹30", "Harvest Gold", "350g", "In Stock", "blinkit"⟩,
   ⟨"Mother Dairy Toned Milk 500ml", "₹29", "Mother Dairy", "500ml", "In Stock", "blinkit"⟩,
   ⟨"Britannia Brown Bread 350g", "₹35", "Britannia", "350g", "In Stock", "blinkit"⟩]

/-- `MOCK_GROCERY['zepto']`. -/
def MOCK_GROCERY_zepto : List GroceryListing :=
  [⟨"Amul Gold Full Cream Milk 1L", "₹69", "Amul", "1L", "In Stock", "zepto"⟩,
   ⟨"Modern White Bread 400g", "₹28", "Modern", "400g", "In Stock", "zepto"⟩,
   ⟨"Country Delight Cow Milk 500ml", "₹35", "Country Delight", "500ml", "In Stock", "zepto"⟩]

/-- The nested `grocery_analysis` dict of an analyzed grocery option
(tools.py:715-720). -/
structure GroceryUnitInfo where
  unit_price : ℚ
  effective_price_per_unit : ℚ
  unit_measure : String
  weight_info : String
deriving DecidableEq, Repr

/-- One analyzed grocery product option (tools.py:708-721). -/
structure GroceryOption where
  product_title : String
  original_price : ℚ
  effective_price : ℚ
  credit_card_discount : ℚ
  platform : String
  recommended_card : String
  grocery_analysis : GroceryUnitInfo
deriving DecidableEq, Repr

/-- One cart entry (tools.py:733-740). -/
structure CartItem where
  product_name : String
  platform : String
  quantity : Nat
  total_quantity_price : ℚ
  savings : ℚ
  card_used : String
deriving DecidableEq, Repr

/-- One requested grocery item with its analyzed options (tools.py:688-695). -/
structure GroceryItem where
  name : String
  requested_quantity : String
  normalized_quantity : ℚ
  unit : String
  category : String
  product_options : List GroceryOption
deriving DecidableEq, Repr

/-- The dict returned by `analyze_grocery_prices_tool` on success
(tools.py:746-753). -/
structure GroceryAnalysis where
  products : List GroceryOption
  grocery_items : List GroceryItem
  cart : List CartItem
  total_savings : ℚ
  analysis_type : String
  status : String
deriving DecidableEq, Repr

/-- Analysis of one product option (tools.py:698-721): the benefit is
computed for `user_credit_cards[0]` only (`"No Card"` when the list is
empty). -/
def analyzeGroceryOption (user_credit_cards : List String) (product : GroceryListing) :
    GroceryOption :=
  let price := extract_price_from_text product.price
  let best_card := user_credit_cards.headD "No Card"
  let benefits := calculate_credit_card_benefits price best_card "grocery"
  let credit_card_discount := benefits.cashback_earned
  let effective_price := price - credit_card_discount
  { product_title := product.product_title
    original_price := price
    effective_price := effective_price
    credit_card_discount := credit_card_discount
    platform := pyTitle product.platform
    recommended_card := best_card
    grocery_analysis := ⟨price, effective_price, "per_piece", product.weight⟩ }

/-- Candidate products for one requested item (tools.py:668-682). -/
def itemProducts (item : String) : List GroceryListing :=
  if item = "milk" then
    MOCK_GROCERY_blinkit.filter (fun p => listContains "milk".data (pyLower p.product_title)) ++
      MOCK_GROCERY_zepto.filter (fun p => listContains "milk".data (pyLower p.product_title))
  else if item = "bread" then
    MOCK_GROCERY_blinkit.filter (fun p => listContains "bread".data (pyLower p.product_title)) ++
      MOCK_GROCERY_zepto.filter (fun p => listContains "bread".data (pyLower p.product_title))
  else
    MOCK_GROCERY_blinkit.take 2 ++ MOCK_GROCERY_zepto.take 2

/-- Ascending effective-price order for grocery options (`.sort(key=...)`,
tools.py:727). -/
def effLeG (a b : GroceryOption) : Prop := a.effective_price ≤ b.effective_price

instance : DecidableRel effLeG :=
  fun a b => inferInstanceAs (Decidable (a.effective_price ≤ b.effective_price))

instance : IsTotal GroceryOption effLeG := ⟨fun a b => le_total a.effective_price b.effective_price⟩

instance : IsTrans GroceryOption effLeG := ⟨fun _ _ _ => le_trans⟩

/-- The sorted `product_options` list of one requested item
(tools.py:698-727). -/
def groceryOptionsSorted (user_credit_cards : List String) (item : String) :
    List GroceryOption :=
  List.insertionSort effLeG ((itemProducts item).map (analyzeGroceryOption user_credit_cards))

/-- The cart entry built from the best option (tools.py:733-740). -/
def groceryCartItem (best : GroceryOption) : CartItem :=
  ⟨best.product_title, best.platform, 1, best.effective_price, best.credit_card_discount,
    best.recommended_card⟩

/-- One iteration of the per-item loop (tools.py:666-744) on the fold state
`(products, grocery_items, cart, total_savings)`. -/
def groceryStep (user_credit_cards : List String)
    (acc : List GroceryOption × List GroceryItem × List CartItem × ℚ) (item : String) :
    List GroceryOption × List GroceryItem × List CartItem × ℚ :=
  if itemProducts item = [] then acc
  else
    match (groceryOptionsSorted user_credit_cards item).head? with
    | none =>
      (acc.1 ++ (itemProducts item).map (analyzeGroceryOption user_credit_cards),
        acc.2.1 ++ [⟨item, "1 unit", 1, "pieces", "general",
          groceryOptionsSorted user_credit_cards item⟩],
        acc.2.2.1, acc.2.2.2)
    | some best =>
      (acc.1 ++ (itemProducts item).map (analyzeGroceryOption user_credit_cards),
        acc.2.1 ++ [⟨item, "1 unit", 1, "pieces", "general",
          groceryOptionsSorted user_credit_cards item⟩],
        acc.2.2.1 ++ [groceryCartItem best],
        acc.2.2.2 + best.credit_card_discount)

/-- The requested-items extraction (tools.py:655-661). -/
def groceryItemsFound (grocery_query : String) : List String :=
  if (if listContains "milk".data (pyLower grocery_query) then ["milk"] else []) ++
      (if listContains "bread".data (pyLower grocery_query) then ["bread"] else []) = [] then
    ["general groceries"]
  else
    (if listContains "milk".data (pyLower grocery_query) then ["milk"] else []) ++
      (if listContains "bread".data (pyLower grocery_query) then ["bread"] else [])

/-- `analyze_grocery_prices_tool` (tools.py:628-764). -/
def analyze_grocery_prices_tool (grocery_query : String) (user_credit_cards : List String) :
    GroceryAnalysis :=
  ⟨((groceryItemsFound grocery_query).foldl (groceryStep user_credit_cards) ([], [], [], 0)).1,
    ((groceryItemsFound grocery_query).foldl (groceryStep user_credit_cards) ([], [], [], 0)).2.1,
    ((groceryItemsFound grocery_query).foldl (groceryStep user_credit_cards)
      ([], [], [], 0)).2.2.1,
    ((groceryItemsFound grocery_query).foldl (groceryStep user_credit_cards)
      ([], [], [], 0)).2.2.2,
    "grocery", "success"⟩

/-! ### Intent classification (`classify_query_intent_tool`, tools.py:767-875) -/

/-- A value in the `extracted_params` dict: a string or a list of strings. -/
inductive ParamVal where
  | s (v : String)
  | l (v : List String)
deriving DecidableEq, Repr

/-- `extracted_params` as an insertion-ordered dict. -/
def ExtractedParams := List (String × ParamVal)

instance : DecidableEq ExtractedParams :=
  inferInstanceAs (DecidableEq (List (String × ParamVal)))

/-- Python dict assignment `d[k] = v`: update in place, else append. -/
def dictSet (params : List (String × ParamVal)) (k : String) (v : ParamVal) :
    List (String × ParamVal) :=
  if params.any (fun p => p.1 = k) then
    params.map (fun p => if p.1 = k then (k, v) else p)
  else params ++ [(k, v)]

/-- Python's `k in d` on the params dict. -/
def hasParam (params : List (String × ParamVal)) (k : String) : Bool :=
  params.any (fun p => p.1 = k)

/-- Lookup in the params dict. -/
def getParam (params : List (String × ParamVal)) (k : String) : Option ParamVal :=
  (params.find? (fun p => p.1 = k)).map (fun p => p.2)

/-- The `airport_mappings` dict (tools.py:808-817), in insertion order. -/
def airport_mappings : List (String × String) :=
  [("delhi", "DEL"), ("del", "DEL"),
   ("mumbai", "BOM"), ("bom", "BOM"), ("bombay", "BOM"),
   ("bangalore", "BLR"), ("blr", "BLR"), ("bengaluru", "BLR"),
   ("chennai", "MAA"), ("maa", "MAA"), ("madras", "MAA"),
   ("hyderabad", "HYD"), ("hyd", "HYD"),
   ("pune", "PNQ"), ("pnq", "PNQ"),
   ("kolkata", "CCU"), ("ccu", "CCU"),
   ("goa", "GOI"), ("goi", "GOI")]

/-- The airport-extraction loop body (tools.py:819-829) over the mapping
entries, on the lowercased query `ql`. -/
def flightLoop (ql : List Char) :
    List (String × String) → List (String × ParamVal) → List (String × ParamVal)
  | [], params => params
  | (city, code) :: rest, params =>
    if listContains city.data ql then
      if listContains "from".data ql ∧ listIndex "from".data ql < listIndex city.data ql then
        flightLoop ql rest (dictSet params "departure" (ParamVal.s code))
      else if listContains "to".data ql ∧ listIndex "to".data ql < listIndex city.data ql then
        flightLoop ql rest (dictSet params "arrival" (ParamVal.s code))
      else if ¬ hasParam params "departure" then
        flightLoop ql rest (dictSet params "departure" (ParamVal.s code))
      else if ¬ hasParam params "arrival" then
        flightLoop ql rest (dictSet params "arrival" (ParamVal.s code))
      else flightLoop ql rest params
    else flightLoop ql rest params

/-- Airport extraction for a flight query (tools.py:807-829). -/
def flightExtract (ql : List Char) : List (String × ParamVal) :=
  flightLoop ql airport_mappings []

/-- The classified-intent record returned by the tool. -/
structure IntentResult where
  intent : String
  confidence : ℚ
  extracted_params : List (String × ParamVal)
  missing_params : List String
  clarifying_questions : List String
deriving DecidableEq, Repr

/-- Product-intent keywords (tools.py:783). -/
def productIntentKws : List String :=
  ["buy", "purchase", "product", "price", "compare", "iphone", "laptop", "phone",
   "smartphone", "samsung"]

/-- Flight-intent keywords (tools.py:800). -/
def flightIntentKws : List String :=
  ["flight", "fly", "travel", "airport", "airline", "book", "ticket", "trip"]

/-- Grocery-intent keywords (tools.py:831). -/
def groceryIntentKws : List String :=
  ["grocery", "milk", "bread", "food", "vegetables", "fruits", "daily", "essentials"]

/-- Grocery item extraction (tools.py:834-845). -/
def groceryItems (ql : List Char) : List String :=
  let items :=
    (if listContains "milk".data ql then ["milk"] else []) ++
      (if listContains "bread".data ql then ["bread"] else []) ++
      (if listContains "vegetables".data ql ∨ listContains "veggie".data ql then
        ["vegetables"] else []) ++
      (if listContains "fruits".data ql ∨ listContains "fruit".data ql then ["fruits"] else [])
  if items = [] then ["groceries"] else items

/-- `classify_query_intent_tool` (tools.py:767-875). -/
def classify_query_intent_tool (user_query : String) : IntentResult :=
  if productIntentKws.any (fun k => listContains k.data (pyLower user_query)) then
    { intent := "product_search", confidence := 8/10,
      extracted_params :=
        if listContains "iphone".data (pyLower user_query) then
          [("product_name", ParamVal.s "iPhone")]
        else if listContains "laptop".data (pyLower user_query) then
          [("product_name", ParamVal.s "laptop")]
        else if listContains "samsung".data (pyLower user_query) then
          [("product_name", ParamVal.s "Samsung")]
        else [("product_name", ParamVal.s user_query)],
      missing_params := [], clarifying_questions := [] }
  else if flightIntentKws.any (fun k => listContains k.data (pyLower user_query)) then
    { intent := "flight_search", confidence := 8/10,
      extracted_params := flightExtract (pyLower user_query),
      missing_params := [], clarifying_questions := [] }
  else if groceryIntentKws.any (fun k => listContains k.data (pyLower user_query)) then
    { intent := "grocery_search", confidence := 8/10,
      extracted_params := [("items", ParamVal.l (groceryItems (pyLower user_query)))],
      missing_params := [], clarifying_questions := [] }
  else
    { intent := "general_question", confidence := 3/10,
      extracted_params := [], missing_params := [], clarifying_questions := [] }

example : (classify_query_intent_tool "I want to buy an iPhone 15").intent = "product_search" := by
  decide
example :
    (classify_query_intent_tool "Find flights from Delhi to Mumbai").intent = "flight_search" := by
  decide

/-! ### Domain router (`route_query_to_agent`, agents.py:690-703) -/

/-- Product keywords of the router (agents.py:695). -/
def productRouteKws : List String :=
  ["buy", "purchase", "product", "phone", "laptop", "electronics"]

/-- Grocery keywords of the router (agents.py:697). -/
def groceryRouteKws : List String :=
  ["grocery", "milk", "bread", "food", "vegetables", "fruits"]

/-- Flight keywords of the router (agents.py:699). -/
def flightRouteKws : List String :=
  ["flight", "fly", "travel", "airport", "booking"]

/-- `route_query_to_agent` (agents.py:690-703).  The function reads
`intent_result.get('intent', 'general')` into a local that is never used;
the branch tests look only at the raw query. -/
def route_query_to_agent (query : String) (intent_result : IntentResult) : String :=
  let _intent := intent_result.intent
  if productRouteKws.any (fun w => listContains w.data (pyLower query)) then "product"
  else if groceryRouteKws.any (fun w => listContains w.data (pyLower query)) then "grocery"
  else if flightRouteKws.any (fun w => listContains w.data (pyLower query)) then "flight"
  else "product"

/-! ### Response composition (`OrchestratorAgent._format_response`,
main.py:312-371)

The wall-clock read `datetime.now()` is made an explicit `now` parameter;
the heterogeneous `data` payloads are a type parameter.  `best_deal` /
`best_option` model `agent_response.get(key)` truthiness as presence. -/

/-- The agent result bundle consumed by `_format_response`. -/
structure AgentBundle (α : Type) where
  summary : Option String
  products : Option α
  flights : Option α
  grocery_items : Option α
  cart : Option α
  total_savings : Option α
  best_deal : Option α
  best_option : Option α
  next_steps : List String
  error : Option String
deriving DecidableEq

/-- One suggested action (main.py:340-359). -/
structure RespAction (α : Type) where
  type : String
  description : String
  data : Option α
deriving DecidableEq

/-- The `ChatResponse` model (main.py:86-97); `timestamp` is the clock value
observed at composition time. -/
structure ChatResponse (α : Type) where
  conversation_id : String
  timestamp : Nat
  message : String
  intent : String
  agent_used : String
  data : Option (List (String × α))
  follow_up_questions : Option (List String)
  actions : Option (List (RespAction α))
  status : String
  error : Option String
deriving DecidableEq

/-- Python truthiness of the optional `error` string (main.py:369). -/
def pyTruthyStr : Option String → Bool
  | none => false
  | some s => s ≠ ""

/-- `_format_response` (main.py:312-371), with the `datetime.now()` call
passed in as `now`.  `original_query` is a parameter of the source function
that its body never reads. -/
def format_response {α : Type} (now : Nat) (conversation_id : String)
    (agent_response : AgentBundle α) (intent : String) (domain : String)
    (original_query : String) : ChatResponse α :=
  let _query := original_query
  let message := agent_response.summary.getD "I found some results for your query."
  let data : List (String × α) :=
    (match agent_response.products with | some v => [("products", v)] | none => []) ++
      (match agent_response.flights with | some v => [("flights", v)] | none => []) ++
      (match agent_response.grocery_items with | some v => [("grocery_items", v)] | none => []) ++
      (match agent_response.cart with | some v => [("cart", v)] | none => []) ++
      (match agent_response.total_savings with | some v => [("total_savings", v)] | none => [])
  let actions : List (RespAction α) :=
    (match agent_response.best_deal with
      | some v => [⟨"purchase", "Purchase recommended product", some v⟩]
      | none => []) ++
      (match agent_response.best_option with
        | some v => [⟨"book", "Book recommended flight", some v⟩]
        | none => []) ++
      agent_response.next_steps.map (fun s => ⟨"suggestion", s, none⟩)
  { conversation_id := conversation_id
    timestamp := now
    message := message
    intent := intent
    agent_used := domain
    data := if data.isEmpty then none else some data
    follow_up_questions := none
    actions := if actions.isEmpty then none else some actions
    status := if pyTruthyStr agent_response.error then "error" else "success"
    error := agent_response.error }

/-! ## Claim theorems -/

/-- C9: the price extractor parses a currency-anchored numeral with commas
stripped, and resolves empty or markerless text to 0 without failing:
`extract_price("₹61,499") = 61499`, `extract_price("Rs. 500") = 500`,
`extract_price("no price here") = 0`, `extract_price("") = 0`. -/
theorem C9_extract_price_values :
    extract_price_from_text "₹61,499" = 61499 ∧
    extract_price_from_text "Rs. 500" = 500 ∧
    extract_price_from_text "no price here" = 0 ∧
    extract_price_from_text "" = 0 :=
  ⟨by decide, by decide, by decide, by decide⟩

/-- C8 counterexample: a category tag outside {general, online, grocery}
does NOT surface an error; `calculate_credit_card_benefits` silently
computes the general-rate benefit, returning the same ordinary result as
category "general" (here: ₹50 cashback on ₹1000 for a known card). -/
theorem C8_counterexample :
    calculate_credit_card_benefits 1000 "HDFC Bank Millennia" "bogus_category" =
      ⟨50, 5, "5% cashback on Amazon, Flipkart, Myntra, Zomato, Swiggy", some "₹1,000"⟩ ∧
    calculate_credit_card_benefits 1000 "HDFC Bank Millennia" "bogus_category" =
      calculate_credit_card_benefits 1000 "HDFC Bank Millennia" "general" :=
  ⟨by decide, by decide⟩

/-- C8 amended: any category tag other than "grocery" and "online" (whether
or not it belongs to the enumerated set) is treated exactly like "general":
the calculator silently uses the card's base cashback rate and never raises
an error. -/
theorem C8_amended (price : ℚ) (card : String) (category : String)
    (h1 : category ≠ "grocery") (h2 : category ≠ "online") :
    calculate_credit_card_benefits price card category =
      calculate_credit_card_benefits price card "general" := by
  unfold calculate_credit_card_benefits
  cases CREDIT_CARD_BENEFITS card with
  | none => rfl
  | some info => simp [h1, h2]

/-- C8 witness: the amended claim applied to amount 1000, a known card and
the malformed category "bogus_category". -/
theorem C8_witness :
    calculate_credit_card_benefits 1000 "HDFC Bank Millennia" "bogus_category" =
      calculate_credit_card_benefits 1000 "HDFC Bank Millennia" "general" :=
  C8_amended 1000 "HDFC Bank Millennia" "bogus_category" (by decide) (by decide)

/-- A concrete agent result bundle used to exhibit the composer's
timestamp dependence. -/
def sampleBundle : AgentBundle String :=
  ⟨some "Found 2 products", some "plist", none, none, none, none, some "best", none,
    ["Compare prices"], none⟩

/-- C5 counterexample: composing the same (conversation id, bundle, intent,
domain, query) at two different clock readings yields different
`ChatResponse`s — the `timestamp` field comes from `datetime.now()`, so two
successive calls are not byte-identical. -/
theorem C5_counterexample :
    format_response 0 "conv1" sampleBundle "product_search" "product" "iphone" ≠
      format_response 1 "conv1" sampleBundle "product_search" "product" "iphone" := by
  decide

/-- C5 amended: response composition is deterministic in the input bundle in
every field EXCEPT `timestamp`: with the timestamp normalized, two
compositions of the same bundle at any two clock readings are identical, and
the `timestamp` field is exactly the clock reading of the call. -/
theorem C5_amended {α : Type} (now now2 : Nat) (cid : String) (bundle : AgentBundle α)
    (intent domain query : String) :
    ({ format_response now cid bundle intent domain query with timestamp := 0 } =
        { format_response now2 cid bundle intent domain query with timestamp := 0 }) ∧
    (format_response now cid bundle intent domain query).timestamp = now :=
  ⟨rfl, rfl⟩

/-- C4 counterexample: for query "purchase milk" with a classified intent
`grocery_search` at confidence 0.8 (> 0.6), the router does NOT return the
intent's domain "grocery": the word "purchase" is in the router's
product keyword list, which is checked first, so it returns "product". -/
theorem C4_counterexample :
    route_query_to_agent "purchase milk" ⟨"grocery_search", 8/10, [], [], []⟩ = "product" ∧
    (6/10 : ℚ) < 8/10 ∧
    ("product" : String) ≠ "grocery" :=
  ⟨by decide, by decide, by decide⟩

/-- C4 amended: the router ignores the classified intent and its confidence
entirely — its output depends only on the raw query, via keyword matching
checked in priority order product, then grocery, then flight (using the
router's own keyword lists), with "product" as the default when no keyword
matches; it always produces one of the three domains. -/
theorem C4_amended (query : String) (i1 i2 : IntentResult) :
    route_query_to_agent query i1 = route_query_to_agent query i2 ∧
    (route_query_to_agent query i1 = "product" ∨ route_query_to_agent query i1 = "grocery" ∨
      route_query_to_agent query i1 = "flight") ∧
    (productRouteKws.any (fun w => listContains w.data (pyLower query)) = true →
      route_query_to_agent query i1 = "product") ∧
    (productRouteKws.any (fun w => listContains w.data (pyLower query)) = false →
      groceryRouteKws.any (fun w => listContains w.data (pyLower query)) = true →
      route_query_to_agent query i1 = "grocery") ∧
    (productRouteKws.any (fun w => listContains w.data (pyLower query)) = false →
      groceryRouteKws.any (fun w => listContains w.data (pyLower query)) = false →
      flightRouteKws.any (fun w => listContains w.data (pyLower query)) = true →
      route_query_to_agent query i1 = "flight") ∧
    (productRouteKws.any (fun w => listContains w.data (pyLower query)) = false →
      groceryRouteKws.any (fun w => listContains w.data (pyLower query)) = false →
      flightRouteKws.any (fun w => listContains w.data (pyLower query)) = false →
      route_query_to_agent query i1 = "product") := by
  refine ⟨rfl, ?_, fun h => ?_, fun h1 h2 => ?_, fun h1 h2 h3 => ?_, fun h1 h2 h3 => ?_⟩
  · unfold route_query_to_agent
    split_ifs <;> simp
  · unfold route_query_to_agent
    simp [h]
  · unfold route_query_to_agent
    simp [h1, h2]
  · unfold route_query_to_agent
    simp [h1, h2, h3]
  · unfold route_query_to_agent
    simp [h1, h2, h3]

/-- C4 witness: the grocery-priority clause of the amended claim applied to
"I need milk" (no product keyword, grocery keyword "milk" present) with two
distinct intent results; the keyword hypotheses are discharged by
computation. -/
theorem C4_witness :
    route_query_to_agent "I need milk" ⟨"grocery_search", 8/10, [], [], []⟩ = "grocery" :=
  (C4_amended "I need milk" ⟨"grocery_search", 8/10, [], [], []⟩
    ⟨"general_question", 3/10, [], [], []⟩).2.2.2.1 (by decide) (by decide)

/-- Filtering on one effective price commutes with `orderedInsert`: the
elements skipped while inserting `x` have strictly smaller effective prices
than `x`, so they never carry `x`'s price. -/
theorem orderedInsert_filter_eff (x : AnalyzedProduct) (l : List AnalyzedProduct) (q : ℚ) :
    (List.orderedInsert effLe x l).filter (fun a => decide (a.effective_price = q)) =
      if x.effective_price = q then
        x :: l.filter (fun a => decide (a.effective_price = q))
      else l.filter (fun a => decide (a.effective_price = q)) := by
  induction l with
  | nil =>
    by_cases hx : x.effective_price = q <;> simp [List.orderedInsert, List.filter, hx]
  | cons b bs ih =>
    by_cases hxb : effLe x b
    · by_cases hx : x.effective_price = q <;>
        simp [List.orderedInsert, hxb, List.filter_cons, hx]
    · have hblt : b.effective_price < x.effective_price := lt_of_not_le hxb
      by_cases hx : x.effective_price = q
      · have hb : ¬ b.effective_price = q := by
          intro hb
          exact absurd (hx ▸ hb) (ne_of_lt hblt)
        simp [List.orderedInsert, hxb, List.filter_cons, hx, hb, ih]
      · by_cases hb : b.effective_price = q <;>
          simp [List.orderedInsert, hxb, List.filter_cons, hx, hb, ih]

/-- Filtering on one effective price commutes with the stable sort. -/
theorem insertionSort_filter_eff (l : List AnalyzedProduct) (q : ℚ) :
    (List.insertionSort effLe l).filter (fun a => decide (a.effective_price = q)) =
      l.filter (fun a => decide (a.effective_price = q)) := by
  induction l with
  | nil => rfl
  | cons x xs ih =>
    rw [List.insertionSort, orderedInsert_filter_eff]
    by_cases hx : x.effective_price = q <;> simp [hx, ih, List.filter_cons]

/-- C2: the analyzed-products list returned by the ranking tool is sorted
non-decreasing by effective price (for indices i < j the i-th effective
price is at most the j-th), and the sort is stable: restricted to any one
effective price, the output coincides with the pre-sort analysis order,
which is the input offer order. -/
theorem C2_sorted_stable (products : List Listing) (cards : List String) :
    List.Pairwise effLe (analyze_product_prices_tool products cards).products ∧
    (∀ (i j : Fin (analyze_product_prices_tool products cards).products.length),
      i < j →
        ((analyze_product_prices_tool products cards).products.get i).effective_price ≤
          ((analyze_product_prices_tool products cards).products.get j).effective_price) ∧
    (∀ l, analyzeLoop cards products = Except.ok l →
      ∀ q : ℚ,
        ((analyze_product_prices_tool products cards).products).filter
            (fun a => decide (a.effective_price = q)) =
          l.filter (fun a => decide (a.effective_price = q))) := by
  have hpair : List.Pairwise effLe (analyze_product_prices_tool products cards).products := by
    unfold analyze_product_prices_tool
    cases h : analyzeLoop cards products with
    | error e => simp [AnalysisResult.products]
    | ok l =>
      simpa [AnalysisResult.products] using List.sorted_insertionSort effLe l
  refine ⟨hpair, fun i j hij => List.pairwise_iff_get.1 hpair i j hij, fun l hl q => ?_⟩
  unfold analyze_product_prices_tool
  rw [hl]
  simpa [AnalysisResult.products] using insertionSort_filter_eff l q

instance {ε α : Type} [DecidableEq ε] [DecidableEq α] : DecidableEq (Except ε α) := fun a b =>
  match a, b with
  | .error e1, .error e2 =>
    if h : e1 = e2 then isTrue (by rw [h])
    else isFalse (by intro hh; cases hh; exact h rfl)
  | .error _, .ok _ => isFalse (by intro hh; cases hh)
  | .ok _, .error _ => isFalse (by intro hh; cases hh)
  | .ok v1, .ok v2 =>
    if h : v1 = v2 then isTrue (by rw [h])
    else isFalse (by intro hh; cases hh; exact h rfl)

/-- Concrete offers for the C2 witness: two offers tie at effective price
95 (originals ₹100) around a more expensive one. -/
def c2Products : List Listing :=
  [⟨some "A", some "₹100", none, none⟩, ⟨some "B", some "₹200", none, none⟩,
   ⟨some "C", some "₹100", none, none⟩]

/-- Card list for the C2 witness. -/
def c2Cards : List String := ["HDFC Bank Millennia"]

/-- The pre-sort analysis of `c2Products` with `c2Cards`, in input order. -/
def c2Pre : List AnalyzedProduct :=
  [⟨"A", "", "Unknown", 100, 0, 5, 5, 95, 5, "HDFC Bank Millennia",
    "5% cashback on Amazon, Flipkart, Myntra, Zomato, Swiggy",
    ⟨0, 0, 5, 5, "₹1,000", 5⟩, 9/10, "In_Stock", "Standard delivery available"⟩,
   ⟨"B", "", "Unknown", 200, 0, 10, 10, 190, 5, "HDFC Bank Millennia",
    "5% cashback on Amazon, Flipkart, Myntra, Zomato, Swiggy",
    ⟨0, 0, 10, 5, "₹1,000", 10⟩, 9/10, "In_Stock", "Standard delivery available"⟩,
   ⟨"C", "", "Unknown", 100, 0, 5, 5, 95, 5, "HDFC Bank Millennia",
    "5% cashback on Amazon, Flipkart, Myntra, Zomato, Swiggy",
    ⟨0, 0, 5, 5, "₹1,000", 5⟩, 9/10, "In_Stock", "Standard delivery available"⟩]

/-- C2 witness: the stability clause applied to a concrete run with a tie at
effective price 95 — the tied offers keep their input order. -/
theorem C2_witness :
    ((analyze_product_prices_tool c2Products c2Cards).products).filter
        (fun a => decide (a.effective_price = 95)) =
      c2Pre.filter (fun a => decide (a.effective_price = 95)) :=
  (C2_sorted_stable c2Products c2Cards).2.2 c2Pre (by decide) 95

/-- C7 counterexample: with two unparseable-price offers and one valid offer,
both bad offers are excluded (so exclusion itself holds), but the returned
dict carries only `analyzed_products`, `total_products` (= 1, the count of
INCLUDED offers) and `user_credit_cards` — the excluded count 2 is reported
nowhere, i.e. the drops leave no diagnostic trace in the result. -/
theorem C7_counterexample :
    analyze_product_prices_tool
        [⟨some "Bad1", some "free", none, none⟩, ⟨some "Bad2", some "n/a", none, none⟩,
         ⟨some "Good", some "₹1,000", some "Amazon", some "u"⟩]
        ["HDFC Bank Millennia"] =
      AnalysisResult.ok
        [⟨"Good", "u", "Amazon", 1000, 0, 50, 50, 950, 5, "HDFC Bank Millennia",
          "5% cashback on Amazon, Flipkart, Myntra, Zomato, Swiggy",
          ⟨0, 0, 50, 5, "₹1,000", 50⟩, 9/10, "In_Stock", "Standard delivery available"⟩]
        1 ["HDFC Bank Millennia"] ∧
    List.countP
        (fun p => decide (extract_price_from_text (Listing.price_str p |>.getD "₹0") ≤ 0))
        [⟨some "Bad1", some "free", none, none⟩, ⟨some "Bad2", some "n/a", none, none⟩,
         ⟨some "Good", some "₹1,000", some "Amazon", some "u"⟩] = 2 ∧
    (1 : Nat) ≠ 2 :=
  ⟨by decide, by decide, by decide⟩

/-- A listing accepted by the analysis has the positive extracted price
recorded as its original price. -/
theorem analyzeListing_pos {cards : List String} {p : Listing} {ap : AnalyzedProduct}
    (h : analyzeListing cards p = Except.ok (some ap)) :
    0 < ap.original_price ∧
      ap.original_price = extract_price_from_text (p.price_str.getD "₹0") := by
  unfold analyzeListing at h
  by_cases hle : extract_price_from_text (p.price_str.getD "₹0") ≤ 0
  · rw [if_pos hle] at h
    cases h
  · rw [if_neg hle] at h
    cases hfee : (bestBenefitsOf (extract_price_from_text (p.price_str.getD "₹0"))
        cards).2.annual_fee with
    | none => rw [hfee] at h; cases h
    | some fee =>
      rw [hfee] at h
      cases h
      exact ⟨lt_of_not_le hle, rfl⟩

/-- Every entry of a successful analysis loop has positive original price. -/
theorem analyzeLoop_pos {cards : List String} :
    ∀ {ps : List Listing} {l : List AnalyzedProduct},
      analyzeLoop cards ps = Except.ok l → ∀ ap ∈ l, 0 < ap.original_price := by
  intro ps
  induction ps with
  | nil =>
    intro l hl ap hap
    cases hl
    cases hap
  | cons p ps ih =>
    intro l hl ap hap
    unfold analyzeLoop at hl
    cases hlist : analyzeListing cards p with
    | error e => rw [hlist] at hl; cases hl
    | ok o =>
      rw [hlist] at hl
      cases o with
      | none => exact ih hl ap hap
      | some ap2 =>
        cases hloop : analyzeLoop cards ps with
        | error e => rw [hloop] at hl; cases hl
        | ok rest =>
          rw [hloop] at hl
          cases hl
          rcases List.mem_cons.1 hap with h | h
          · subst h
            exact (analyzeListing_pos hlist).1
          · exact ih hloop ap h

/-- C7 amended: offers whose resolved original price is ≤ 0 are excluded
from the output entirely (every returned entry has positive original price),
but silently: the `total_products` count in the result is the number of
INCLUDED offers (the length of the returned list), and the result carries no
count of the excluded offers. -/
theorem C7_amended (products : List Listing) (cards : List String)
    (l : List AnalyzedProduct) (n : Nat) (cs : List String)
    (h : analyze_product_prices_tool products cards = AnalysisResult.ok l n cs) :
    (∀ ap ∈ l, 0 < ap.original_price) ∧ n = l.length ∧ cs = cards := by
  unfold analyze_product_prices_tool at h
  cases hloop : analyzeLoop cards products with
  | error e => rw [hloop] at h; cases h
  | ok l0 =>
    rw [hloop] at h
    cases h
    refine ⟨fun ap hap => ?_, rfl, rfl⟩
    exact analyzeLoop_pos hloop ap ((List.mem_insertionSort effLe).1 hap)

/-- C7 witness: the amended claim applied to the two-bad-one-good input. -/
theorem C7_witness :
    (∀ ap ∈
        [(⟨"Good", "u", "Amazon", 1000, 0, 50, 50, 950, 5, "HDFC Bank Millennia",
          "5% cashback on Amazon, Flipkart, Myntra, Zomato, Swiggy",
          ⟨0, 0, 50, 5, "₹1,000", 50⟩, 9/10, "In_Stock",
          "Standard delivery available"⟩ : AnalyzedProduct)],
        0 < ap.original_price) ∧
    (1 : Nat) =
      [(⟨"Good", "u", "Amazon", 1000, 0, 50, 50, 950, 5, "HDFC Bank Millennia",
        "5% cashback on Amazon, Flipkart, Myntra, Zomato, Swiggy",
        ⟨0, 0, 50, 5, "₹1,000", 50⟩, 9/10, "In_Stock",
        "Standard delivery available"⟩ : AnalyzedProduct)].length ∧
    ["HDFC Bank Millennia"] = ["HDFC Bank Millennia"] :=
  C7_amended
    [⟨some "Bad1", some "free", none, none⟩, ⟨some "Bad2", some "n/a", none, none⟩,
     ⟨some "Good", some "₹1,000", some "Amazon", some "u"⟩]
    ["HDFC Bank Millennia"] _ 1 ["HDFC Bank Millennia"] (by decide)

/-- C3 counterexample: for the grocery query "milk" with cards
`["HDFC Bank Millennia", "SBI SimplySAVE"]`, the winning offer is the
₹29 Mother Dairy milk and the cart records the FIRST card (HDFC, grocery
rate 1%, discount ₹0.29) even though the supplied SBI SimplySAVE card
(grocery rate 10%) gives the strictly larger discount ₹2.90 on that same
offer — the recorded card is a fixed first card, not the maximizer. -/
theorem C3_counterexample :
    (analyze_grocery_prices_tool "milk" ["HDFC Bank Millennia", "SBI SimplySAVE"]).cart =
      [⟨"Mother Dairy Toned Milk 500ml", "Blinkit", 1, mkRat 2871 100, mkRat 29 100,
        "HDFC Bank Millennia"⟩] ∧
    (calculate_credit_card_benefits 29 "HDFC Bank Millennia" "grocery").cashback_earned <
      (calculate_credit_card_benefits 29 "SBI SimplySAVE" "grocery").cashback_earned ∧
    "SBI SimplySAVE" ∈ ["HDFC Bank Millennia", "SBI SimplySAVE"] :=
  ⟨by decide, by decide, by decide⟩

/-- The head of the effective-price-sorted option list minimizes the
effective price among all options. -/
theorem head_sorted_min {best : GroceryOption} {l : List GroceryOption}
    (hh : (List.insertionSort effLeG l).head? = some best) :
    ∀ opt ∈ List.insertionSort effLeG l, best.effective_price ≤ opt.effective_price := by
  have hs : List.Sorted effLeG (List.insertionSort effLeG l) :=
    List.sorted_insertionSort effLeG l
  cases hl : List.insertionSort effLeG l with
  | nil =>
    rw [hl] at hh
    cases hh
  | cons x xs =>
    rw [hl] at hh hs
    injection hh with hx
    subst hx
    intro opt hopt
    rcases List.mem_cons.1 hopt with rfl | h
    · exact le_refl _
    · exact List.rel_of_sorted_cons hs opt h

/-- The cart invariant: every cart entry records the first supplied card,
and is built from an option of one of the produced grocery items that
minimizes the effective price among that item's options. -/
def CartInv (cards : List String)
    (acc : List GroceryOption × List GroceryItem × List CartItem × ℚ) : Prop :=
  ∀ ci ∈ acc.2.2.1,
    ci.card_used = cards.headD "No Card" ∧
    ∃ gi ∈ acc.2.1, ∃ best ∈ gi.product_options,
      ci = groceryCartItem best ∧
      ∀ opt ∈ gi.product_options, best.effective_price ≤ opt.effective_price

/-- One grocery step preserves the cart invariant. -/
theorem groceryStep_inv (cards : List String)
    (acc : List GroceryOption × List GroceryItem × List CartItem × ℚ) (item : String)
    (h : CartInv cards acc) : CartInv cards (groceryStep cards acc item) := by
  unfold groceryStep
  by_cases hempty : itemProducts item = []
  · rw [if_pos hempty]
    exact h
  · rw [if_neg hempty]
    cases hh : (groceryOptionsSorted cards item).head? with
    | none =>
      intro ci hci
      obtain ⟨hcard, gi, hgi, hrest⟩ := h ci hci
      exact ⟨hcard, gi, List.mem_append_left _ hgi, hrest⟩
    | some best =>
      intro ci hci
      rcases List.mem_append.1 hci with hold | hnew
      · obtain ⟨hcard, gi, hgi, hrest⟩ := h ci hold
        exact ⟨hcard, gi, List.mem_append_left _ hgi, hrest⟩
      · have hci2 : ci = groceryCartItem best := by simpa using hnew
        have hb : best ∈ (itemProducts item).map (analyzeGroceryOption cards) :=
          (List.mem_insertionSort effLeG).1 (List.mem_of_mem_head? hh)
        rcases List.mem_map.1 hb with ⟨p, _, hp⟩
        refine ⟨?_, ⟨item, "1 unit", 1, "pieces", "general", groceryOptionsSorted cards item⟩,
          List.mem_append_right _ (List.mem_singleton_self _), best,
          List.mem_of_mem_head? hh, hci2, head_sorted_min hh⟩
        rw [hci2]
        show best.recommended_card = cards.headD "No Card"
        rw [← hp]
        rfl

/-- The cart invariant extends over the whole item fold. -/
theorem groceryFold_inv (cards : List String) :
    ∀ (items : List String) (acc : List GroceryOption × List GroceryItem × List CartItem × ℚ),
      CartInv cards acc → CartInv cards (items.foldl (groceryStep cards) acc)
  | [], _, h => h
  | item :: items, acc, h => by
    rw [List.foldl_cons]
    exact groceryFold_inv cards items _ (groceryStep_inv cards acc item h)

/-- C3 amended: for every grocery query and card list, every CartItem that
`analyze_grocery_prices_tool` adds is built from an option of one of the
produced grocery items that MINIMIZES effective price among that item's
candidate options, but the card it records is always the FIRST
caller-supplied card (`user_credit_cards[0]`, or "No Card" when the list is
empty) — the benefit is computed with that fixed card only, not the
discount-maximizing card. -/
theorem C3_amended (query : String) (cards : List String) :
    ∀ ci ∈ (analyze_grocery_prices_tool query cards).cart,
      ci.card_used = cards.headD "No Card" ∧
      ∃ gi ∈ (analyze_grocery_prices_tool query cards).grocery_items,
        ∃ best ∈ gi.product_options,
          ci = groceryCartItem best ∧
          ∀ opt ∈ gi.product_options, best.effective_price ≤ opt.effective_price := by
  intro ci hci
  exact groceryFold_inv cards (groceryItemsFound query) ([], [], [], 0)
    (by intro ci2 h2; cases h2) ci hci

/-- C3 witness: the amended claim applied to query "milk" and the two-card
list of the counterexample; the winning cart entry records the first card. -/
theorem C3_witness :
    (⟨"Mother Dairy Toned Milk 500ml", "Blinkit", 1, mkRat 2871 100, mkRat 29 100,
      "HDFC Bank Millennia"⟩ : CartItem).card_used =
      (["HDFC Bank Millennia", "SBI SimplySAVE"] : List String).headD "No Card" :=
  (C3_amended "milk" ["HDFC Bank Millennia", "SBI SimplySAVE"]
    ⟨"Mother Dairy Toned Milk 500ml", "Blinkit", 1, mkRat 2871 100, mkRat 29 100,
      "HDFC Bank Millennia"⟩ (by decide)).1

/-- C10: a grocery query mentioning neither "milk" nor "bread" yields
exactly one requested item, the generic "general groceries" placeholder,
whose candidate options are exactly (up to the effective-price sort) the
analyses of the first two blinkit products and the first two zepto
products — no other keyword (vegetables, fruits, ...) ever becomes a
distinct item. -/
theorem C10_generic_item (query : String) (cards : List String)
    (h1 : listContains "milk".data (pyLower query) = false)
    (h2 : listContains "bread".data (pyLower query) = false) :
    ∃ gi, (analyze_grocery_prices_tool query cards).grocery_items = [gi] ∧
      gi.name = "general groceries" ∧
      gi.product_options.Perm
        ((MOCK_GROCERY_blinkit.take 2 ++ MOCK_GROCERY_zepto.take 2).map
          (analyzeGroceryOption cards)) := by
  have hitems : groceryItemsFound query = ["general groceries"] := by
    unfold groceryItemsFound
    rw [h1, h2]
    simp
  refine ⟨⟨"general groceries", "1 unit", 1, "pieces", "general",
    groceryOptionsSorted cards "general groceries"⟩, ?_, rfl, ?_⟩
  · show ((groceryItemsFound query).foldl (groceryStep cards) ([], [], [], 0)).2.1 = _
    rw [hitems]
    rw [List.foldl_cons, List.foldl_nil]
    unfold groceryStep
    rw [if_neg (by decide : ¬ itemProducts "general groceries" = [])]
    cases hh : (groceryOptionsSorted cards "general groceries").head? <;> rfl
  · have hip : itemProducts "general groceries" =
        MOCK_GROCERY_blinkit.take 2 ++ MOCK_GROCERY_zepto.take 2 := by decide
    show (groceryOptionsSorted cards "general groceries").Perm _
    unfold groceryOptionsSorted
    rw [hip]
    exact List.perm_insertionSort effLeG _

/-- C10 witness: the claim applied to the query "I need vegetables", which
contains neither "milk" nor "bread". -/
theorem C10_witness :
    ∃ gi,
      (analyze_grocery_prices_tool "I need vegetables"
          ["HDFC Bank Millennia"]).grocery_items = [gi] ∧
      gi.name = "general groceries" ∧
      gi.product_options.Perm
        ((MOCK_GROCERY_blinkit.take 2 ++ MOCK_GROCERY_zepto.take 2).map
          (analyzeGroceryOption ["HDFC Bank Millennia"])) :=
  C10_generic_item "I need vegetables" ["HDFC Bank Millennia"] (by decide) (by decide)

/-- C6 counterexample: in "flight delhi mumbai" both "delhi" and "mumbai"
occur, with "delhi" appearing first, so the claim requires
departure = DEL and arrival = BOM; the code instead iterates the mapping
table in its fixed key order, where the entry "del" also matches (as a
substring of "delhi") and fills the arrival slot with DEL before "mumbai"
is ever considered. -/
theorem C6_counterexample :
    (classify_query_intent_tool "flight delhi mumbai").intent = "flight_search" ∧
    listContains "delhi".data (pyLower "flight delhi mumbai") = true ∧
    listContains "mumbai".data (pyLower "flight delhi mumbai") = true ∧
    listIndex "delhi".data (pyLower "flight delhi mumbai") <
      listIndex "mumbai".data (pyLower "flight delhi mumbai") ∧
    getParam (classify_query_intent_tool "flight delhi mumbai").extracted_params "arrival" =
      some (ParamVal.s "DEL") ∧
    ParamVal.s "DEL" ≠ ParamVal.s "BOM" :=
  ⟨by decide, by decide, by decide, by decide, by decide, by decide⟩

/-- When the query contains neither "from" nor "to", a state with both
parameters already set is left unchanged by the rest of the table scan. -/
theorem flightLoop_both (ql : List Char)
    (hfrom : listContains "from".data ql = false)
    (hto : listContains "to".data ql = false) (c d : String) :
    ∀ ms : List (String × String),
      flightLoop ql ms [("departure", ParamVal.s c), ("arrival", ParamVal.s d)] =
        [("departure", ParamVal.s c), ("arrival", ParamVal.s d)]
  | [] => rfl
  | (city, code) :: ms => by
    unfold flightLoop
    by_cases hc : listContains city.data ql
    · rw [if_pos hc, if_neg (by simp [hfrom]), if_neg (by simp [hto]),
        if_neg (by simp [hasParam]), if_neg (by simp [hasParam])]
      exact flightLoop_both ql hfrom hto c d ms
    · rw [if_neg hc]
      exact flightLoop_both ql hfrom hto c d ms

/-- When the query contains neither "from" nor "to", a state with only the
departure set receives the next matching table entry as arrival. -/
theorem flightLoop_dep (ql : List Char)
    (hfrom : listContains "from".data ql = false)
    (hto : listContains "to".data ql = false) (c : String) :
    ∀ ms : List (String × String),
      flightLoop ql ms [("departure", ParamVal.s c)] =
        match ms.filter (fun e => listContains e.1.data ql) with
        | [] => [("departure", ParamVal.s c)]
        | (_, c2) :: _ =>
          [("departure", ParamVal.s c), ("arrival", ParamVal.s c2)]
  | [] => rfl
  | (city, code) :: ms => by
    unfold flightLoop
    by_cases hc : listContains city.data ql
    · rw [if_pos hc, if_neg (by simp [hfrom]), if_neg (by simp [hto]),
        if_neg (by simp [hasParam]), if_pos (by simp [hasParam])]
      have hds : dictSet [("departure", ParamVal.s c)] "arrival" (ParamVal.s code) =
          [("departure", ParamVal.s c), ("arrival", ParamVal.s code)] := by
        simp [dictSet]
      rw [hds, flightLoop_both ql hfrom hto c code ms]
      simp only [List.filter_cons, hc, if_true]
    · rw [if_neg hc, flightLoop_dep ql hfrom hto c ms]
      simp [List.filter_cons, hc]

/-- When the query contains neither "from" nor "to", the scan starting from
the empty parameter dict assigns the first table entry (in table order)
found in the query to departure and the second to arrival. -/
theorem flightLoop_nil_spec (ql : List Char)
    (hfrom : listContains "from".data ql = false)
    (hto : listContains "to".data ql = false) :
    ∀ ms : List (String × String),
      flightLoop ql ms [] =
        match ms.filter (fun e => listContains e.1.data ql) with
        | [] => []
        | [(_, c1)] => [("departure", ParamVal.s c1)]
        | (_, c1) :: (_, c2) :: _ =>
          [("departure", ParamVal.s c1), ("arrival", ParamVal.s c2)]
  | [] => rfl
  | (city, code) :: ms => by
    unfold flightLoop
    by_cases hc : listContains city.data ql
    · rw [if_pos hc, if_neg (by simp [hfrom]), if_neg (by simp [hto]),
        if_pos (by simp [hasParam])]
      have hds : dictSet [] "departure" (ParamVal.s code) =
          [("departure", ParamVal.s code)] := by
        simp [dictSet]
      rw [hds, flightLoop_dep ql hfrom hto code ms]
      simp only [List.filter_cons, hc, if_true]
      cases hmf : ms.filter (fun e => listContains e.1.data ql) with
      | nil => rfl
      | cons hd tl =>
        obtain ⟨a2, c2⟩ := hd
        rfl
    · rw [if_neg hc, flightLoop_nil_spec ql hfrom hto ms]
      simp [List.filter_cons, hc]

/-- C6 amended: for a query classified as flight_search that contains
neither "from" nor "to" as substrings, the extracted parameters are
produced by scanning the airport table in its FIXED TABLE ORDER (entries
such as "del" matching as substrings of the query): the first table entry
occurring in the query becomes `departure` and the second becomes
`arrival` — not the first two city names in order of their appearance in
the query text. -/
theorem C6_amended (q : String)
    (hprod : productIntentKws.any (fun k => listContains k.data (pyLower q)) = false)
    (hflight : flightIntentKws.any (fun k => listContains k.data (pyLower q)) = true)
    (hfrom : listContains "from".data (pyLower q) = false)
    (hto : listContains "to".data (pyLower q) = false) :
    (classify_query_intent_tool q).intent = "flight_search" ∧
    (classify_query_intent_tool q).extracted_params =
      match airport_mappings.filter (fun e => listContains e.1.data (pyLower q)) with
      | [] => []
      | [(_, c1)] => [("departure", ParamVal.s c1)]
      | (_, c1) :: (_, c2) :: _ =>
        [("departure", ParamVal.s c1), ("arrival", ParamVal.s c2)] := by
  unfold classify_query_intent_tool
  rw [hprod, hflight]
  exact ⟨rfl, flightLoop_nil_spec (pyLower q) hfrom hto airport_mappings⟩

/-- C6 witness: the amended claim applied to "flight delhi mumbai": the
first two table entries found are "delhi" and "del", so both parameters
are set to DEL. -/
theorem C6_witness :
    (classify_query_intent_tool "flight delhi mumbai").intent = "flight_search" ∧
    (classify_query_intent_tool "flight delhi mumbai").extracted_params =
      [("departure", ParamVal.s "DEL"), ("arrival", ParamVal.s "DEL")] := by
  have h := C6_amended "flight delhi mumbai" (by decide) (by decide) (by decide) (by decide)
  refine ⟨h.1, ?_⟩
  rw [h.2]
  decide

/-- C1 counterexample: a single offer with positive resolved price (₹100)
and the non-empty card list ["Mystery Card"] produce NO AnalyzedOffer at
all: every supplied card is unknown to the benefits table, the selected
benefits dict lacks the `annual_fee` key, and the resulting `KeyError`
makes the tool return its error dict instead of a ranking. -/
theorem C1_counterexample :
    analyze_product_prices_tool [⟨some "Test", some "₹100", some "Amazon", some "u"⟩]
        ["Mystery Card"] = AnalysisResult.err "annual_fee" ∧
    0 < extract_price_from_text "₹100" ∧
    (["Mystery Card"] : List String) ≠ [] :=
  ⟨by decide, by decide, by decide⟩

/-- The cashback the product analysis computes for one card (category
"online", tools.py:569). -/
def cashbackFor (price : ℚ) (card : String) : ℚ :=
  (calculate_credit_card_benefits price card "online").cashback_earned

/-- The spec's best-card selection: the first card in the supplied order
whose cashback attains the maximum cashback over the card list (with 0 as
the floor, matching the loop's initial best of 0.0). -/
def specBestCard (price : ℚ) (cards : List String) : Option String :=
  cards.find?
    (fun c => decide (cashbackFor price c = (cards.map (cashbackFor price)).foldr max 0))

theorem cashbackFor_unknown {c : String} (h : CREDIT_CARD_BENEFITS c = none) (price : ℚ) :
    cashbackFor price c = 0 := by
  unfold cashbackFor calculate_credit_card_benefits
  rw [h]

theorem cashbackFor_known {c : String} {info : CardInfo}
    (h : CREDIT_CARD_BENEFITS c = some info) (price : ℚ) :
    cashbackFor price c = price * info.online_rate := by
  unfold cashbackFor calculate_credit_card_benefits
  rw [h]
  simp

/-- Every card in the static table has a positive online rate. -/
theorem online_rate_pos {c : String} {info : CardInfo}
    (h : CREDIT_CARD_BENEFITS c = some info) : 0 < info.online_rate := by
  unfold CREDIT_CARD_BENEFITS at h
  split_ifs at h
  all_goals injection h with h2
  all_goals subst h2
  all_goals norm_num

theorem cashbackFor_pos {c : String} (hk : (CREDIT_CARD_BENEFITS c).isSome = true)
    {price : ℚ} (hp : 0 < price) : 0 < cashbackFor price c := by
  rcases Option.isSome_iff_exists.1 hk with ⟨info, h⟩
  rw [cashbackFor_known h]
  exact mul_pos hp (online_rate_pos h)

theorem known_of_cashbackFor_pos {c : String} {price : ℚ} (h : 0 < cashbackFor price c) :
    (CREDIT_CARD_BENEFITS c).isSome = true := by
  cases hc : CREDIT_CARD_BENEFITS c with
  | none =>
    rw [cashbackFor_unknown hc] at h
    exact absurd h (lt_irrefl 0)
  | some info => rfl

/-- A known card's benefit record always carries the annual fee. -/
theorem annual_fee_known {c : String} {info : CardInfo}
    (h : CREDIT_CARD_BENEFITS c = some info) (price : ℚ) (cat : String) :
    (calculate_credit_card_benefits price c cat).annual_fee = some info.annual_fee := by
  unfold calculate_credit_card_benefits
  rw [h]

/-- Unfolding equation of the best-card loop. -/
theorem bestCardLoop_cons (price : ℚ) (card : String) (rest : List String)
    (acc : String × ℚ × Option BenefitResult) :
    bestCardLoop price (card :: rest) acc =
      if acc.2.1 < cashbackFor price card then
        bestCardLoop price rest
          (card, cashbackFor price card,
            some (calculate_credit_card_benefits price card "online"))
      else bestCardLoop price rest acc := rfl

/-- Invariant of the best-card loop: either no card beat the incoming best
(the state is returned unchanged and every scanned cashback is at most the
incoming best), or the final best card is the FIRST scanned card attaining
the final best cashback, every earlier card being strictly below it and
every scanned card at most it. -/
theorem bestCardLoop_spec (price : ℚ) :
    ∀ (cs : List String) (acc : String × ℚ × Option BenefitResult),
      (bestCardLoop price cs acc = acc ∧
        ∀ c ∈ cs, cashbackFor price c ≤ acc.2.1) ∨
      (∃ i, ∃ hi : i < cs.length,
        (bestCardLoop price cs acc).1 = cs.get ⟨i, hi⟩ ∧
        (bestCardLoop price cs acc).2.1 = cashbackFor price (cs.get ⟨i, hi⟩) ∧
        (bestCardLoop price cs acc).2.2 =
          some (calculate_credit_card_benefits price (cs.get ⟨i, hi⟩) "online") ∧
        acc.2.1 < (bestCardLoop price cs acc).2.1 ∧
        (∀ j, ∀ hj : j < cs.length, j < i →
          cashbackFor price (cs.get ⟨j, hj⟩) < (bestCardLoop price cs acc).2.1) ∧
        ∀ c ∈ cs, cashbackFor price c ≤ (bestCardLoop price cs acc).2.1) := by
  intro cs
  induction cs with
  | nil =>
    intro acc
    exact Or.inl ⟨rfl, by intro c hc; cases hc⟩
  | cons card rest ih =>
    intro acc
    by_cases hlt : acc.2.1 < cashbackFor price card
    · have hstep : bestCardLoop price (card :: rest) acc =
          bestCardLoop price rest
            (card, cashbackFor price card,
              some (calculate_credit_card_benefits price card "online")) := by
        rw [bestCardLoop_cons, if_pos hlt]
      rcases ih (card, cashbackFor price card,
          some (calculate_credit_card_benefits price card "online")) with
        ⟨heq, hle⟩ | ⟨i, hi, h1, h2, h3, h4, h5, h6⟩
      · refine Or.inr ⟨0, by simp, ?_, ?_, ?_, ?_, ?_, ?_⟩
        · rw [hstep, heq]
          rfl
        · rw [hstep, heq]
          rfl
        · rw [hstep, heq]
          rfl
        · rw [hstep, heq]
          exact hlt
        · intro j hj hji
          omega
        · intro c hc
          rw [hstep, heq]
          rcases List.mem_cons.1 hc with rfl | hc2
          · exact le_refl _
          · exact hle c hc2
      · refine Or.inr ⟨i + 1, Nat.succ_lt_succ hi, ?_, ?_, ?_, ?_, ?_, ?_⟩
        · rw [hstep]
          exact h1
        · rw [hstep]
          exact h2
        · rw [hstep]
          exact h3
        · rw [hstep]
          exact lt_trans hlt h4
        · intro j hj hji
          rw [hstep]
          cases j with
          | zero => exact h4
          | succ j2 => exact h5 j2 (by omega) (by omega)
        · intro c hc
          rw [hstep]
          rcases List.mem_cons.1 hc with rfl | hc2
          · exact le_of_lt h4
          · exact h6 c hc2
    · have hstep : bestCardLoop price (card :: rest) acc =
          bestCardLoop price rest acc := by
        rw [bestCardLoop_cons, if_neg hlt]
      rcases ih acc with ⟨heq, hle⟩ | ⟨i, hi, h1, h2, h3, h4, h5, h6⟩
      · refine Or.inl ⟨hstep.trans heq, ?_⟩
        intro c hc
        rcases List.mem_cons.1 hc with rfl | hc2
        · exact not_lt.1 hlt
        · exact hle c hc2
      · refine Or.inr ⟨i + 1, Nat.succ_lt_succ hi, ?_, ?_, ?_, ?_, ?_, ?_⟩
        · rw [hstep]
          exact h1
        · rw [hstep]
          exact h2
        · rw [hstep]
          exact h3
        · rw [hstep]
          exact h4
        · intro j hj hji
          rw [hstep]
          cases j with
          | zero => exact lt_of_le_of_lt (not_lt.1 hlt) h4
          | succ j2 => exact h5 j2 (by omega) (by omega)
        · intro c hc
          rw [hstep]
          rcases List.mem_cons.1 hc with rfl | hc2
          · exact le_of_lt (lt_of_le_of_lt (not_lt.1 hlt) h4)
          · exact h6 c hc2

theorem le_foldr_max {x : ℚ} : ∀ {l : List ℚ}, x ∈ l → x ≤ l.foldr max 0
  | a :: l, hx => by
    rcases List.mem_cons.1 hx with rfl | h
    · exact le_max_left _ _
    · exact le_trans (le_foldr_max h) (le_max_right _ _)

theorem foldr_max_le {b : ℚ} (h0 : 0 ≤ b) :
    ∀ {l : List ℚ}, (∀ x ∈ l, x ≤ b) → l.foldr max 0 ≤ b
  | [], _ => h0
  | a :: l, h =>
    max_le (h a (List.mem_cons_self a l))
      (foldr_max_le h0 (fun x hx => h x (List.mem_cons_of_mem a hx)))

theorem find?_at {α : Type} (p : α → Bool) :
    ∀ (l : List α) (i : Nat) (hi : i < l.length),
      p (l.get ⟨i, hi⟩) = true →
      (∀ j, ∀ hj : j < l.length, j < i → p (l.get ⟨j, hj⟩) = false) →
      l.find? p = some (l.get ⟨i, hi⟩)
  | [], i, hi, _, _ => absurd hi (by simp)
  | a :: l, 0, _, hp, _ => List.find?_cons_of_pos l hp
  | a :: l, i + 1, hi, hp, hbefore => by
    have ha : p a = false := hbefore 0 (by simp) (by omega)
    rw [List.find?_cons_of_neg l (by simp [ha])]
    exact find?_at p l i (by simpa using hi) hp
      (fun j hj hji => hbefore (j + 1) (by simpa using Nat.succ_lt_succ hj) (by omega))

/-- With at least one known card and a positive price, the loop ends in its
updated state: the best card is the first maximizer, the best benefits are
its computed record, and its cashback is positive. -/
theorem bestCardLoop_result (cards : List String) {price : ℚ} (hp : 0 < price)
    (hknown : ∃ k, k ∈ cards ∧ (CREDIT_CARD_BENEFITS k).isSome = true) :
    ∃ i, ∃ hi : i < cards.length,
      (bestCardLoop price cards (cards.headD "No Card", 0, none)).1 = cards.get ⟨i, hi⟩ ∧
      (bestCardLoop price cards (cards.headD "No Card", 0, none)).2.1 =
        cashbackFor price (cards.get ⟨i, hi⟩) ∧
      (bestCardLoop price cards (cards.headD "No Card", 0, none)).2.2 =
        some (calculate_credit_card_benefits price (cards.get ⟨i, hi⟩) "online") ∧
      0 < cashbackFor price (cards.get ⟨i, hi⟩) ∧
      (∀ j, ∀ hj : j < cards.length, j < i →
        cashbackFor price (cards.get ⟨j, hj⟩) < cashbackFor price (cards.get ⟨i, hi⟩)) ∧
      ∀ c ∈ cards, cashbackFor price c ≤ cashbackFor price (cards.get ⟨i, hi⟩) := by
  obtain ⟨k, hk, hks⟩ := hknown
  rcases bestCardLoop_spec price cards (cards.headD "No Card", 0, none) with
    ⟨_, hle⟩ | ⟨i, hi, h1, h2, h3, h4, h5, h6⟩
  · exact absurd (hle k hk) (not_le.2 (cashbackFor_pos hks hp))
  · exact ⟨i, hi, h1, h2, h3, h2 ▸ h4, fun j hj hji => h2 ▸ h5 j hj hji,
      fun c hc => h2 ▸ h6 c hc⟩

/-- Under the same conditions the loop's first maximizer is exactly what
`specBestCard` selects. -/
theorem specBestCard_eq (cards : List String) {price : ℚ}
    {i : Nat} (hi : i < cards.length)
    (hmax : ∀ c ∈ cards, cashbackFor price c ≤ cashbackFor price (cards.get ⟨i, hi⟩))
    (hpos : 0 < cashbackFor price (cards.get ⟨i, hi⟩))
    (hfirst : ∀ j, ∀ hj : j < cards.length, j < i →
      cashbackFor price (cards.get ⟨j, hj⟩) < cashbackFor price (cards.get ⟨i, hi⟩)) :
    specBestCard price cards = some (cards.get ⟨i, hi⟩) := by
  have hm : (cards.map (cashbackFor price)).foldr max 0 =
      cashbackFor price (cards.get ⟨i, hi⟩) := by
    refine le_antisymm ?_ ?_
    · refine foldr_max_le (le_of_lt hpos) ?_
      intro x hx
      rcases List.mem_map.1 hx with ⟨c, hc, rfl⟩
      exact hmax c hc
    · exact le_foldr_max (List.mem_map_of_mem _ (List.get_mem cards i hi))
  unfold specBestCard
  refine find?_at _ cards i hi ?_ ?_
  · simp [hm]
  · intro j hj hji
    simp only [decide_eq_false_iff_not]
    rw [hm]
    exact ne_of_lt (hfirst j hj hji)

theorem bestBenefitsOf_of_some {price : ℚ} {cards : List String} {c : String}
    {b : BenefitResult}
    (h1 : (bestCardLoop price cards (cards.headD "No Card", 0, none)).1 = c)
    (h3 : (bestCardLoop price cards (cards.headD "No Card", 0, none)).2.2 = some b) :
    bestBenefitsOf price cards = (c, b) := by
  unfold bestBenefitsOf
  rcases hr : bestCardLoop price cards (cards.headD "No Card", 0, none) with ⟨bc, cb, bb⟩
  rw [hr] at h1 h3
  simp only at h1 h3
  subst h1
  subst h3
  rfl

/-- With a positive price and at least one known card, the analysis of a
listing succeeds, and the produced entry records as its card the first
cashback-maximizing card of the supplied list, with the matching discount. -/
theorem analyzeListing_known (cards : List String) (p : Listing)
    (hpos : 0 < extract_price_from_text (p.price_str.getD "₹0"))
    (hknown : ∃ k, k ∈ cards ∧ (CREDIT_CARD_BENEFITS k).isSome = true) :
    ∃ ap : AnalyzedProduct,
      analyzeListing cards p = Except.ok (some ap) ∧
      ap.product_title = p.title.getD "Unknown Product" ∧
      ap.original_price = extract_price_from_text (p.price_str.getD "₹0") ∧
      ap.credit_card_discount = cashbackFor ap.original_price ap.recommended_card ∧
      (∀ c ∈ cards, cashbackFor ap.original_price c ≤
        cashbackFor ap.original_price ap.recommended_card) ∧
      specBestCard ap.original_price cards = some ap.recommended_card := by
  obtain ⟨i, hi, h1, h2, h3, hposcb, h5, h6⟩ := bestCardLoop_result cards hpos hknown
  have hbb : bestBenefitsOf (extract_price_from_text (p.price_str.getD "₹0")) cards =
      (cards.get ⟨i, hi⟩,
        calculate_credit_card_benefits (extract_price_from_text (p.price_str.getD "₹0"))
          (cards.get ⟨i, hi⟩) "online") :=
    bestBenefitsOf_of_some h1 h3
  have hks : (CREDIT_CARD_BENEFITS (cards.get ⟨i, hi⟩)).isSome = true :=
    known_of_cashbackFor_pos hposcb
  rcases Option.isSome_iff_exists.1 hks with ⟨info, hinfo⟩
  have hfee : (bestBenefitsOf (extract_price_from_text (p.price_str.getD "₹0"))
      cards).2.annual_fee = some info.annual_fee := by
    rw [hbb]
    exact annual_fee_known hinfo _ _
  refine ⟨mkAnalyzedProduct (p.title.getD "Unknown Product") (p.url.getD "")
      (p.platform.getD "Unknown") (extract_price_from_text (p.price_str.getD "₹0"))
      (bestBenefitsOf (extract_price_from_text (p.price_str.getD "₹0")) cards).1
      (bestBenefitsOf (extract_price_from_text (p.price_str.getD "₹0")) cards).2
      info.annual_fee, ?_, rfl, rfl, ?_, ?_, ?_⟩
  · unfold analyzeListing
    rw [if_neg (not_le.2 hpos), hfee]
  · show (bestBenefitsOf (extract_price_from_text (p.price_str.getD "₹0"))
        cards).2.cashback_earned =
      cashbackFor (extract_price_from_text (p.price_str.getD "₹0"))
        (bestBenefitsOf (extract_price_from_text (p.price_str.getD "₹0")) cards).1
    rw [hbb]
    rfl
  · intro c hc
    show cashbackFor (extract_price_from_text (p.price_str.getD "₹0")) c ≤
      cashbackFor (extract_price_from_text (p.price_str.getD "₹0"))
        (bestBenefitsOf (extract_price_from_text (p.price_str.getD "₹0")) cards).1
    rw [hbb]
    exact h6 c hc
  · show specBestCard (extract_price_from_text (p.price_str.getD "₹0")) cards =
      some (bestBenefitsOf (extract_price_from_text (p.price_str.getD "₹0")) cards).1
    rw [hbb]
    exact specBestCard_eq cards hi h6 hposcb h5

/-- With at least one known card the product loop never raises: it returns a
list containing an analysis entry for every positive-price listing. -/
theorem analyzeLoop_known (cards : List String)
    (hknown : ∃ k, k ∈ cards ∧ (CREDIT_CARD_BENEFITS k).isSome = true) :
    ∀ ps : List Listing, ∃ l, analyzeLoop cards ps = Except.ok l ∧
      ∀ p ∈ ps, 0 < extract_price_from_text (p.price_str.getD "₹0") →
        ∃ ap ∈ l, analyzeListing cards p = Except.ok (some ap)
  | [] => ⟨[], rfl, by intro p hp; cases hp⟩
  | p :: ps => by
    obtain ⟨l, hl, hmem⟩ := analyzeLoop_known cards hknown ps
    by_cases hpos : 0 < extract_price_from_text (p.price_str.getD "₹0")
    · obtain ⟨ap, hap, _⟩ := analyzeListing_known cards p hpos hknown
      refine ⟨ap :: l, ?_, ?_⟩
      · unfold analyzeLoop
        rw [hap, hl]
      · intro p2 hp2 hpos2
        rcases List.mem_cons.1 hp2 with rfl | hp2t
        · exact ⟨ap, List.mem_cons_self _ _, hap⟩
        · obtain ⟨ap2, hap2, h2⟩ := hmem p2 hp2t hpos2
          exact ⟨ap2, List.mem_cons_of_mem _ hap2, h2⟩
    · have hok : analyzeListing cards p = Except.ok none := by
        unfold analyzeListing
        rw [if_pos (not_lt.1 hpos)]
      refine ⟨l, ?_, ?_⟩
      · unfold analyzeLoop
        rw [hok]
        exact hl
      · intro p2 hp2 hpos2
        rcases List.mem_cons.1 hp2 with rfl | hp2t
        · exact absurd hpos2 hpos
        · exact hmem p2 hp2t hpos2

/-- C1 amended: for every offer with positive resolved price in the input,
every card list containing AT LEAST ONE card known to the benefits table
(without such a card the whole analysis aborts into its error dict, see the
counterexample), the corresponding AnalyzedOffer exists in the output, its
discount is the cashback of its recommended card, that card's cashback is
maximal among the supplied cards, and it is the FIRST card of the supplied
list attaining the maximum (`specBestCard`). -/
theorem C1_amended (products : List Listing) (cards : List String) (p : Listing)
    (hmem : p ∈ products)
    (hpos : 0 < extract_price_from_text (p.price_str.getD "₹0"))
    (hknown : ∃ k, k ∈ cards ∧ (CREDIT_CARD_BENEFITS k).isSome = true) :
    ∃ res ap,
      analyze_product_prices_tool products cards =
        AnalysisResult.ok res res.length cards ∧
      ap ∈ res ∧
      ap.product_title = p.title.getD "Unknown Product" ∧
      ap.original_price = extract_price_from_text (p.price_str.getD "₹0") ∧
      ap.credit_card_discount = cashbackFor ap.original_price ap.recommended_card ∧
      (∀ c ∈ cards, cashbackFor ap.original_price c ≤
        cashbackFor ap.original_price ap.recommended_card) ∧
      specBestCard ap.original_price cards = some ap.recommended_card := by
  obtain ⟨l, hl, hmem2⟩ := analyzeLoop_known cards hknown products
  obtain ⟨ap, hapl, hap⟩ := hmem2 p hmem hpos
  obtain ⟨ap2, hap2, hprops⟩ := analyzeListing_known cards p hpos hknown
  rw [hap] at hap2
  injection hap2 with hap3
  injection hap3 with hap4
  subst hap4
  refine ⟨List.insertionSort effLe l, ap, ?_, ?_, hprops.1, hprops.2.1, hprops.2.2.1,
    hprops.2.2.2.1, hprops.2.2.2.2⟩
  · unfold analyze_product_prices_tool
    rw [hl]
  · exact (List.mem_insertionSort effLe).2 hapl

/-- C1 witness: the amended claim applied to a ₹61,499 offer and the card
list ["Mystery Card", "SBI SimplyCLICK", "HDFC Bank Millennia"]; SimplyCLICK
(online rate 10%) beats both others, and the known-card hypothesis is
discharged with it. -/
theorem C1_witness :
    ∃ res ap,
      analyze_product_prices_tool [⟨some "iPhone", some "₹61,499", some "Amazon", some "u"⟩]
          ["Mystery Card", "SBI SimplyCLICK", "HDFC Bank Millennia"] =
        AnalysisResult.ok res res.length
          ["Mystery Card", "SBI SimplyCLICK", "HDFC Bank Millennia"] ∧
      ap ∈ res ∧
      ap.product_title = "iPhone" ∧
      ap.original_price = 61499 ∧
      ap.credit_card_discount = cashbackFor ap.original_price ap.recommended_card ∧
      (∀ c ∈ ["Mystery Card", "SBI SimplyCLICK", "HDFC Bank Millennia"],
        cashbackFor ap.original_price c ≤ cashbackFor ap.original_price ap.recommended_card) ∧
      specBestCard ap.original_price ["Mystery Card", "SBI SimplyCLICK", "HDFC Bank Millennia"] =
        some ap.recommended_card := by
  obtain ⟨res, ap, h1, h2, h3, h4, h5, h6, h7⟩ :=
    C1_amended [⟨some "iPhone", some "₹61,499", some "Amazon", some "u"⟩]
      ["Mystery Card", "SBI SimplyCLICK", "HDFC Bank Millennia"]
      ⟨some "iPhone", some "₹61,499", some "Amazon", some "u"⟩
      (List.mem_singleton_self _) (by decide)
      ⟨"SBI SimplyCLICK", by simp, by decide⟩
  exact ⟨res, ap, h1, h2, h3, h4.trans (by decide), h5, h6, h7⟩
